import Mathlib

/-!
Shallow embedding of the polling / data-refresh core of the `glowmarkt`
home-automation integration (files `api.py`, `sensor.py`, `models.py`).

Conventions of the embedding:
* Python `datetime` values are modelled at the granularity the code uses:
  an integer calendar-day index plus hour / minute / second / microsecond
  fields.  `timedelta(days=1)` subtraction decrements the day index.
* Python exceptions are values of `PyError`; a function that can raise
  returns `Except PyError α`.  An `Except.error` result models an exception
  propagating out of the function.
* Network responses are passed in as parameters (an HTTP status code plus
  the decoded JSON payload), since the transport layer is an external
  collaborator.
* Python floats are modelled as rationals; `round(x, n)` is modelled as
  round-half-to-even at `n` decimal digits, which is Python's rounding mode.
-/

/-- Python exception values raised by the embedded code. -/
inductive PyError where
  | valueError (msg : String)
  | indexError
  | runtimeError (msg : String)
deriving Repr, DecidableEq

/-- Round-half-to-even to an integer, the rounding Python `round` uses. -/
def roundHalfEven (x : ℚ) : ℤ :=
  let f := Int.floor x
  let r := x - f
  if r < 1/2 then f
  else if 1/2 < r then f + 1
  else if f % 2 = 0 then f else f + 1

/-- Python `round(x, n)` on a rational. -/
def pyRound (x : ℚ) (n : ℕ) : ℚ :=
  (roundHalfEven (x * 10 ^ n) : ℚ) / 10 ^ n

/-- Model of `datetime.datetime`: `day` is an absolute calendar-day index,
the remaining fields are the time of day. -/
structure PyDateTime where
  day : ℤ
  hour : ℕ
  minute : ℕ
  second : ℕ
  microsecond : ℕ
deriving Repr, DecidableEq

/-- `datetime.time` comparison `now.time() <= time(1, 5)`: lexicographic
comparison of the time-of-day fields against 01:05:00.000000. -/
def timeLE0105 (d : PyDateTime) : Bool :=
  decide (d.hour < 1 ∨ (d.hour = 1 ∧
    (d.minute < 5 ∨ (d.minute = 5 ∧ d.second = 0 ∧ d.microsecond = 0))))

/-- `now - timedelta(days=1)`: the previous calendar day, same time of day. -/
def subOneDay (d : PyDateTime) : PyDateTime :=
  ⟨d.day - 1, d.hour, d.minute, d.second, d.microsecond⟩

/-- `now.replace(hour=0, minute=0, second=0, microsecond=0)`. -/
def midnightOf (d : PyDateTime) : PyDateTime :=
  ⟨d.day, 0, 0, 0, 0⟩

/-- `now.replace(second=0, microsecond=0)`. -/
def truncToMinute (d : PyDateTime) : PyDateTime :=
  ⟨d.day, d.hour, d.minute, 0, 0⟩

/-- `models.ReadingData`: one `(timestamp, value)` pair of a reading. -/
structure ReadingData where
  datestamp : PyDateTime
  value : ℚ
deriving Repr, DecidableEq

/-- `models.Reading`: the ordered sequence of reading entries. -/
structure Reading where
  data : List ReadingData
deriving Repr, DecidableEq

/-- `models.TariffRates`. -/
structure TariffRates where
  rate : ℚ
  standing_charge : ℚ
deriving Repr, DecidableEq

/-- `models.TariffData`. -/
structure TariffData where
  current_rates : TariffRates
deriving Repr, DecidableEq

/-- `models.ResourceOverview`. -/
structure ResourceOverview where
  resource_id : String
  resource_type_id : String
  name : String
deriving Repr, DecidableEq

/-- `models.VirtualEntity`. -/
structure VirtualEntity where
  resources : List ResourceOverview
  name : String
  id : String
deriving Repr, DecidableEq

/-- The `currentRates` block of one record of the tariff endpoint's
`data` array, as read by `GlowMarkt.get_tariff`. -/
structure TariffJsonRecord where
  rate : ℚ
  standingCharge : ℚ
deriving Repr, DecidableEq

/-- `GlowMarkt.get_reading` (api.py): raises `ValueError` on a non-200
status, otherwise wraps the decoded `(epoch, value)` rows as a `Reading`.
The decoded rows are passed in as `rows`. -/
def get_reading (status : ℕ) (rows : List ReadingData) : Except PyError Reading :=
  if status ≠ 200 then .error (.valueError "Failed to retrieve readings")
  else .ok ⟨rows⟩

/-- `GlowMarkt.get_tariff` (api.py): raises `ValueError` on a non-200
status; then evaluates `json["data"][0]`, which raises `IndexError` when
the `data` array is empty; otherwise builds `TariffData` from the first
record's `currentRates` block. -/
def get_tariff (status : ℕ) (data : List TariffJsonRecord) : Except PyError TariffData :=
  if status ≠ 200 then .error (.valueError "Failed to retrieve tariff")
  else
    match data with
    | [] => .error .indexError
    | d :: _ => .ok ⟨⟨d.rate, d.standingCharge⟩⟩

/-- Python `sub in s` on strings: `sub` occurs as a contiguous substring. -/
def strContains (s sub : String) : Bool :=
  decide (sub.data <:+: s.data)

/-- `sensor.supply_type` (sensor.py): substring tests on the classifier,
electricity first; an unmatched classifier raises `ValueError`. -/
def supply_type (classifier : String) : Except PyError String :=
  if strContains classifier "electricity.consumption" then .ok "electricity"
  else if strContains classifier "gas.consumption" then .ok "gas"
  else .error (.valueError "Unexpected classifer")

/-- `sensor.should_update` (sensor.py): true exactly when the current
minute-of-hour is in [1,5] or [31,35]. -/
def should_update (minutes : ℕ) : Bool :=
  if (1 ≤ minutes ∧ minutes ≤ 5) ∨ (31 ≤ minutes ∧ minutes ≤ 35) then true
  else false

/-- The window computation at the top of `sensor.daily_data`: pick the
effective day (the previous calendar day when the wall clock is at or
before 01:05), return `(t_from, t_to)` where `t_from` is the effective
day's midnight and `t_to` is the current time of day on the effective day
with seconds and microseconds zeroed. -/
def daily_window (now : PyDateTime) : PyDateTime × PyDateTime :=
  let n := if timeLE0105 now then subOneDay now else now
  (midnightOf n, truncToMinute n)

/-- `sensor.daily_data` (sensor.py): computes the reading window, calls
`get_reading` (the reading endpoint's status and decoded rows are passed
through), then evaluates `reading.data[0].value` — an `IndexError` when
the sequence is empty — and adds `reading.data[1].value` when the
sequence has more than one entry.  Returns `(value, t_from)`. -/
def daily_data (now : PyDateTime) (status : ℕ) (rows : List ReadingData) :
    Except PyError (ℚ × PyDateTime) :=
  let t_from := (daily_window now).1
  match get_reading status rows with
  | .error e => .error e
  | .ok reading =>
    match reading.data with
    | [] => .error .indexError
    | r0 :: rest =>
      match rest with
      | [] => .ok (r0.value, t_from)
      | r1 :: _ => .ok (r0.value + r1.value, t_from)

/-- Cached state of a `UsageSensor`: the `initalised` flag (spelling from
the source), `_attr_native_value` and `_attr_last_reset`. -/
structure UsageSensorState where
  initalised : Bool
  native_value : Option ℚ
  last_reset : Option PyDateTime
deriving Repr, DecidableEq

/-- `UsageSensor.async_update` (sensor.py): when not initialised, or when
`should_update` is due, evaluate `daily_data` (its result — or the
exception it raises — is the `dd` parameter); a truthy value overwrites
the cached value (rounded to 2 decimals) and last-reset, a falsy value or
a skipped tick leaves the state alone.  There is no `try` in this method:
an exception from `daily_data` propagates out, which the second component
of the result records; the state component is what the fields hold
afterwards. -/
def UsageSensor.async_update (s : UsageSensorState) (minute : ℕ)
    (dd : Except PyError (ℚ × PyDateTime)) : UsageSensorState × Option PyError :=
  if !s.initalised then
    match dd with
    | .error e => (s, some e)
    | .ok (value, t_from) =>
      if value ≠ 0 then
        (⟨true, some (pyRound value 2), some t_from⟩, none)
      else (s, none)
  else if should_update minute then
    match dd with
    | .error e => (s, some e)
    | .ok (value, t_from) =>
      if value ≠ 0 then
        ({ s with native_value := some (pyRound value 2), last_reset := some t_from }, none)
      else (s, none)
  else (s, none)

/-- `sensor.tariff_data`: `(await api.get_tariff(...)).current_rates`,
letting any exception propagate. -/
def tariff_data (fetch : Except PyError TariffData) : Except PyError TariffRates :=
  match fetch with
  | .error e => .error e
  | .ok t => .ok t.current_rates

/-- The two initialisation flags of `TariffCoordinator` (spelling from the
source). -/
structure TariffCoordinatorState where
  rate_initalised : Bool
  standing_initalised : Bool
deriving Repr, DecidableEq

/-- `TariffCoordinator._async_update_data` (sensor.py): if either flag is
unset, fetch the tariff (regardless of the gate), set both flags and
return the `{rate, standing_charge}` mapping; otherwise fetch only when
`should_update` is due; otherwise return the empty dict.  The mapping is
modelled as `some rates`, the empty dict as `none`.  The `getTariff`
result (or the exception it raises) is the `fetch` parameter; an exception
propagates before the flags are assigned. -/
def TariffCoordinator.async_update_data (s : TariffCoordinatorState) (minute : ℕ)
    (fetch : Except PyError TariffData) :
    TariffCoordinatorState × Except PyError (Option TariffRates) :=
  if !s.standing_initalised || !s.rate_initalised then
    match tariff_data fetch with
    | .error e => (s, .error e)
    | .ok rates => (⟨true, true⟩, .ok (some rates))
  else if should_update minute then
    match tariff_data fetch with
    | .error e => (s, .error e)
    | .ok rates => (s, .ok (some rates))
  else (s, .ok none)

/-- `Rate._handle_coordinator_update` (sensor.py): an empty coordinator
dict is falsy and is skipped, leaving the cached native value unchanged;
a populated dict stores `round(rate / 100, 4)`. -/
def Rate.handle_coordinator_update (cached : Option ℚ) (data : Option TariffRates) :
    Option ℚ :=
  match data with
  | none => cached
  | some t => some (pyRound (t.rate / 100) 4)

/-- `Standing._handle_coordinator_update` (sensor.py): same shape as the
rate handler, over `standing_charge`. -/
def Standing.handle_coordinator_update (cached : Option ℚ) (data : Option TariffRates) :
    Option ℚ :=
  match data with
  | none => cached
  | some t => some (pyRound (t.standing_charge / 100) 4)

/-- State of the `functools.lru_cache` slot on `GlowMarkt.get_virtual_entites`.
In Python, `lru_cache` applied to an `async def` method caches the
coroutine OBJECT the first call creates (one slot here: the only argument
is `self`); a coroutine can be awaited at most once, and a second await
raises `RuntimeError`.  `none` means no coroutine cached yet; `some b`
means a coroutine is cached and `b` records whether it was already
awaited. -/
def VirtualEntityCache : Type := Option Bool

/-- One `await client.get_virtual_entites()` step (api.py): on a cache
miss the fresh coroutine is cached and awaited, running the body — raise
`ValueError` on a non-200 status, else return the decoded entities; on a
cache hit the cached coroutine is awaited again, which raises
`RuntimeError` if it was already consumed.  Returns the awaited result
and the cache slot afterwards. -/
def get_virtual_entites (cache : VirtualEntityCache) (status : ℕ)
    (entities : List VirtualEntity) :
    Except PyError (List VirtualEntity) × VirtualEntityCache :=
  let body : Except PyError (List VirtualEntity) :=
    if status ≠ 200 then .error (.valueError "Failed to retrieve virtual entities")
    else .ok entities
  match cache with
  | none => (body, some true)
  | some false => (body, some true)
  | some true => (.error (.runtimeError "cannot reuse already awaited coroutine"), some true)

/-- Claim C4: the update gate is a pure function of the wall-clock
minute-of-hour, due exactly when the minute lies in [1,5] or [31,35]
inclusive; in particular due at 1, 3, 5, 31, 33, 35 and not due at
0, 6, 15, 30, 36. -/
theorem should_update_minute_windows :
    (∀ m : ℕ, should_update m = true ↔ ((1 ≤ m ∧ m ≤ 5) ∨ (31 ≤ m ∧ m ≤ 35)))
    ∧ should_update 1 = true ∧ should_update 3 = true ∧ should_update 5 = true
    ∧ should_update 31 = true ∧ should_update 33 = true ∧ should_update 35 = true
    ∧ should_update 0 = false ∧ should_update 6 = false ∧ should_update 15 = false
    ∧ should_update 30 = false ∧ should_update 36 = false := by
  refine ⟨fun m => ?_, by decide, by decide, by decide, by decide, by decide,
    by decide, by decide, by decide, by decide, by decide, by decide⟩
  by_cases h : ((1 ≤ m ∧ m ≤ 5) ∨ (31 ≤ m ∧ m ≤ 35)) <;> simp [should_update, h]

/-- Claim C3: when the current local time is at or before 01:05 the
reading window starts at the previous calendar day's midnight, otherwise
at today's midnight; the window end is the current wall-clock time of day
on the same effective day with seconds and microseconds zeroed. -/
theorem daily_window_effective_day (now : PyDateTime) :
    ((now.hour < 1 ∨ (now.hour = 1 ∧ (now.minute < 5 ∨
        (now.minute = 5 ∧ now.second = 0 ∧ now.microsecond = 0)))) →
      daily_window now = (⟨now.day - 1, 0, 0, 0, 0⟩, ⟨now.day - 1, now.hour, now.minute, 0, 0⟩))
    ∧ (¬ (now.hour < 1 ∨ (now.hour = 1 ∧ (now.minute < 5 ∨
        (now.minute = 5 ∧ now.second = 0 ∧ now.microsecond = 0)))) →
      daily_window now = (⟨now.day, 0, 0, 0, 0⟩, ⟨now.day, now.hour, now.minute, 0, 0⟩)) := by
  constructor
  · intro h
    have ht : timeLE0105 now = true := by unfold timeLE0105; exact decide_eq_true h
    simp [daily_window, ht, subOneDay, midnightOf, truncToMinute]
  · intro h
    have ht : timeLE0105 now = false := by unfold timeLE0105; exact decide_eq_false h
    simp [daily_window, ht, midnightOf, truncToMinute]

/-- Witness for the claim C3 theorem: at 00:30 the window is based on the
previous day, at 02:00 on the current day. -/
theorem daily_window_effective_day_witness :
    daily_window ⟨0, 0, 30, 0, 0⟩ = (⟨-1, 0, 0, 0, 0⟩, ⟨-1, 0, 30, 0, 0⟩)
    ∧ daily_window ⟨0, 2, 0, 0, 0⟩ = (⟨0, 0, 0, 0, 0⟩, ⟨0, 2, 0, 0, 0⟩) :=
  ⟨(daily_window_effective_day ⟨0, 0, 30, 0, 0⟩).1 (by decide),
   (daily_window_effective_day ⟨0, 2, 0, 0, 0⟩).2 (by decide)⟩

/-- Claim C5: a two-entry reading window yields the exact sum of both
entries, a one-entry window yields that entry's value; in both cases the
window-start timestamp is returned alongside. -/
theorem daily_data_sums_entries (now : PyDateTime) (r0 r1 : ReadingData) :
    daily_data now 200 [r0, r1] = .ok (r0.value + r1.value, (daily_window now).1)
    ∧ daily_data now 200 [r0] = .ok (r0.value, (daily_window now).1) :=
  ⟨rfl, rfl⟩

/-- Claim C9: `supply_type` maps the classifier "gas.consumption" to
"gas" and "electricity.consumption.cost" to "electricity"; a classifier
containing neither known consumption substring raises a classification
error rather than defaulting. -/
theorem supply_type_classification :
    supply_type "gas.consumption" = .ok "gas"
    ∧ supply_type "electricity.consumption.cost" = .ok "electricity"
    ∧ ∀ c : String, strContains c "electricity.consumption" = false →
        strContains c "gas.consumption" = false →
        supply_type c = .error (.valueError "Unexpected classifer") := by
  refine ⟨rfl, rfl, fun c h1 h2 => ?_⟩
  simp [supply_type, h1, h2]

/-- Witness for the claim C9 theorem at the unrecognized classifier
"water.consumption". -/
theorem supply_type_classification_witness :
    strContains "water.consumption" "electricity.consumption" = false
    ∧ strContains "water.consumption" "gas.consumption" = false
    ∧ supply_type "water.consumption" = .error (.valueError "Unexpected classifer") :=
  ⟨rfl, rfl, supply_type_classification.2.2 "water.consumption" rfl rfl⟩

/-- Claim C1 (settled as a code bug): on a reading window with zero
entries, `daily_data` evaluates `reading.data[0]` unconditionally and so
raises `IndexError` instead of returning "no value"; the sensor's cached
state is indeed left unchanged, but only because the exception aborts
`async_update` before any assignment. -/
theorem daily_data_empty_reading_raises (now : PyDateTime) (s : UsageSensorState)
    (minute : ℕ) :
    daily_data now 200 [] = Except.error PyError.indexError
    ∧ (UsageSensor.async_update s minute (daily_data now 200 [])).1 = s := by
  refine ⟨rfl, ?_⟩
  by_cases hb : s.initalised
  · by_cases hg : should_update minute = true
    · simp [UsageSensor.async_update, hb, hg, daily_data, get_reading]
    · simp [UsageSensor.async_update, hb, hg]
  · simp [UsageSensor.async_update, hb, daily_data, get_reading]

/-- Counterexample to claim C2 as stated: with the sensor already
initialised and the gate due (minute 3), an API error from the data call
(`get_reading` raising on a non-2xx response) leaves `async_update` as an
uncaught exception — the second component records the exception that
propagates out of the refresh hook, contradicting "never propagates out
of the sensor refresh hook as an exception". -/
theorem async_update_error_counterexample :
    (UsageSensor.async_update ⟨true, some 5, some ⟨0, 0, 0, 0, 0⟩⟩ 3
      (Except.error (PyError.valueError "Failed to retrieve readings"))).2
    = some (PyError.valueError "Failed to retrieve readings") := rfl

/-- Claim C2 (amended): a transport/API error raised by the data call is
NOT caught anywhere in the sensor layer — whenever the data call runs
(sensor not yet initialised, or gate due) the exception propagates out of
`async_update` — but the previously cached sensor state is retained
unchanged for that tick in every case. -/
theorem async_update_api_error_keeps_state (s : UsageSensorState) (minute : ℕ)
    (e : PyError) :
    (UsageSensor.async_update s minute (.error e)).1 = s
    ∧ (s.initalised = false ∨ should_update minute = true →
        (UsageSensor.async_update s minute (.error e)).2 = some e) := by
  constructor
  · by_cases hb : s.initalised
    · by_cases hg : should_update minute = true
      · simp [UsageSensor.async_update, hb, hg]
      · simp [UsageSensor.async_update, hb, hg]
    · simp [UsageSensor.async_update, hb]
  · intro h
    rcases h with h | h
    · simp [UsageSensor.async_update, h]
    · by_cases hb : s.initalised
      · simp [UsageSensor.async_update, hb, h]
      · simp [UsageSensor.async_update, hb]

/-- Witness for the amended claim C2 theorem on a fresh sensor state. -/
theorem async_update_api_error_keeps_state_witness :
    (UsageSensor.async_update ⟨false, none, none⟩ 0 (.error .indexError)).1
      = ⟨false, none, none⟩
    ∧ (UsageSensor.async_update ⟨false, none, none⟩ 0 (.error .indexError)).2
      = some .indexError :=
  ⟨(async_update_api_error_keeps_state ⟨false, none, none⟩ 0 .indexError).1,
   (async_update_api_error_keeps_state ⟨false, none, none⟩ 0 .indexError).2 (Or.inl rfl)⟩

/-- Claim C6: the tariff coordinator's first refresh (both flags unset)
fetches regardless of the gate's minute and returns the raw
minor-unit-scaled mapping; once initialised, a tick whose minute is not
due yields the empty mapping and the state is unchanged; the Rate and
Standing handlers ignore an empty mapping, keeping their cached value. -/
theorem tariff_coordinator_gating :
    (∀ (minute : ℕ) (t : TariffData),
      TariffCoordinator.async_update_data ⟨false, false⟩ minute (.ok t)
        = (⟨true, true⟩, .ok (some t.current_rates)))
    ∧ (∀ (minute : ℕ) (fetch : Except PyError TariffData), should_update minute = false →
        TariffCoordinator.async_update_data ⟨true, true⟩ minute fetch
          = (⟨true, true⟩, .ok none))
    ∧ (∀ cached : Option ℚ, Rate.handle_coordinator_update cached none = cached)
    ∧ (∀ cached : Option ℚ, Standing.handle_coordinator_update cached none = cached) := by
  refine ⟨fun minute t => rfl, fun minute fetch h => ?_, fun cached => rfl, fun cached => rfl⟩
  simp [TariffCoordinator.async_update_data, h]

/-- Witness for the claim C6 theorem at concrete inputs. -/
theorem tariff_coordinator_gating_witness :
    TariffCoordinator.async_update_data ⟨false, false⟩ 0 (.ok ⟨⟨25, 50⟩⟩)
      = (⟨true, true⟩, .ok (some ⟨25, 50⟩))
    ∧ TariffCoordinator.async_update_data ⟨true, true⟩ 0 (.ok ⟨⟨25, 50⟩⟩)
      = (⟨true, true⟩, .ok none)
    ∧ Rate.handle_coordinator_update (some 1) none = some 1
    ∧ Standing.handle_coordinator_update (some 2) none = some 2 :=
  ⟨tariff_coordinator_gating.1 0 ⟨⟨25, 50⟩⟩,
   tariff_coordinator_gating.2.1 0 (.ok ⟨⟨25, 50⟩⟩) rfl,
   tariff_coordinator_gating.2.2.1 (some 1),
   tariff_coordinator_gating.2.2.2 (some 2)⟩

/-- Claim C7: `get_tariff` fails on every non-200 response and on an
empty tariff list — never silently defaulting — and otherwise returns the
first tariff record's current rate block. -/
theorem get_tariff_failure_modes :
    (∀ (status : ℕ) (data : List TariffJsonRecord), status ≠ 200 →
        get_tariff status data = .error (.valueError "Failed to retrieve tariff"))
    ∧ get_tariff 200 [] = .error .indexError
    ∧ (∀ (d : TariffJsonRecord) (rest : List TariffJsonRecord),
        get_tariff 200 (d :: rest) = .ok ⟨⟨d.rate, d.standingCharge⟩⟩) := by
  refine ⟨fun status data h => ?_, rfl, fun d rest => rfl⟩
  simp [get_tariff, h]

/-- Witness for the claim C7 theorem at a 500 response. -/
theorem get_tariff_failure_modes_witness :
    get_tariff 500 [⟨25, 50⟩] = .error (.valueError "Failed to retrieve tariff") :=
  get_tariff_failure_modes.1 500 [⟨25, 50⟩] (by decide)

/-- Claim C10: when the tariff fetch raises while either initialisation
flag is still unset, the coordinator update propagates the error and
leaves the state — in particular both flags — exactly as it was, so the
next tick runs the unconditional initial fetch again. -/
theorem tariff_initial_fetch_error_keeps_flags (s : TariffCoordinatorState)
    (minute : ℕ) (e : PyError) :
    s.standing_initalised = false ∨ s.rate_initalised = false →
    TariffCoordinator.async_update_data s minute (.error e) = (s, .error e) := by
  intro h
  rcases h with h | h <;> simp [TariffCoordinator.async_update_data, tariff_data, h]

/-- Witness for the claim C10 theorem on the freshly constructed
coordinator state. -/
theorem tariff_initial_fetch_error_keeps_flags_witness :
    TariffCoordinator.async_update_data ⟨false, false⟩ 7 (.error .indexError)
      = (⟨false, false⟩, .error .indexError) :=
  tariff_initial_fetch_error_keeps_flags ⟨false, false⟩ 7 .indexError (Or.inl rfl)

/-- Claim C8 (settled as a code bug): `lru_cache` on the async method
caches the coroutine object, not its result, so the first call succeeds
but the second call on the same client returns the already-awaited cached
coroutine, and awaiting it raises `RuntimeError` instead of returning the
memoized list. -/
theorem get_virtual_entites_second_call_raises :
    (get_virtual_entites none 200 [⟨[], "home", "ve1"⟩]).1 = .ok [⟨[], "home", "ve1"⟩]
    ∧ (get_virtual_entites (get_virtual_entites none 200 [⟨[], "home", "ve1"⟩]).2 200
        [⟨[], "home", "ve1"⟩]).1
      = .error (.runtimeError "cannot reuse already awaited coroutine") :=
  ⟨rfl, rfl⟩
